import Mathlib

/-!
Verification development for the rftp FTP server.

The server's handler layer lives in src/lib/ftp.rs; the per-connection
dispatcher in src/lib/server.rs; the command parser in src/lib/commands.rs;
the user and path-guard state in src/lib/user.rs and src/lib/session.rs.
We embed paths as plain strings with the subset of std::path behaviour the
server exercises, the filesystem as a list of canonical entries, and every
handler as a pure function over that state.  Network nondeterminism
(connect results, the PASV listener address, the bytes arriving on a data
connection) is passed in explicitly as oracle inputs.
-/

namespace RFtp

/-! ## String primitives

The string operations the server uses, implemented by structural recursion
over the character list so that every definition is kernel-reducible (the
corresponding core-library functions recurse on byte positions, which the
kernel cannot evaluate).  Semantics match the rust std functions used by
the source: splitChar is str::split on a one-character pattern, splitWs is
str::split_whitespace, sTrim is str::trim, sReplace is str::replace with a
non-empty pattern, toNatQ is str::parse for unsigned integers. -/

def splitCharAux (c : Char) : List Char → List Char → List String
  | [], acc => [String.mk acc.reverse]
  | x :: xs, acc =>
    if x = c then String.mk acc.reverse :: splitCharAux c xs []
    else splitCharAux c xs (x :: acc)

def splitChar (c : Char) (s : String) : List String :=
  splitCharAux c s.data []

def splitWsAux : List Char → List Char → List String
  | [], acc => if acc.isEmpty then [] else [String.mk acc.reverse]
  | x :: xs, acc =>
    if x.isWhitespace then
      if acc.isEmpty then splitWsAux xs []
      else String.mk acc.reverse :: splitWsAux xs []
    else splitWsAux xs (x :: acc)

/-- str::split_whitespace: maximal runs of non-whitespace. -/
def splitWs (s : String) : List String :=
  splitWsAux s.data []

def sTrim (s : String) : String :=
  String.mk (((s.data.dropWhile Char.isWhitespace).reverse.dropWhile
    Char.isWhitespace).reverse)

def replaceLF (pat rep : List Char) : Nat → List Char → List Char
  | 0, _ => []
  | _ + 1, [] => []
  | fuel + 1, x :: xs =>
    if pat.isPrefixOf (x :: xs) then rep ++ replaceLF pat rep fuel ((x :: xs).drop pat.length)
    else x :: replaceLF pat rep fuel xs

/-- str::replace for a non-empty pattern: replace every non-overlapping
occurrence, scanning left to right.  (The server only ever replaces the
canonical root string, which is non-empty.) -/
def sReplace (s pat rep : String) : String :=
  if pat = "" then s
  else String.mk (replaceLF pat.data rep.data s.data.length s.data)

/-- str::parse for unsigned integers: digits only, at least one. -/
def toNatQ (s : String) : Option Nat :=
  if s.data ≠ [] ∧ s.data.all Char.isDigit then
    some (s.data.foldl (fun n c => n * 10 + (c.toNat - 48)) 0)
  else none

/-! ## Path model (std::path behaviour on strings) -/

/-- Components of a path string, as rust Path::components yields them:
empty segments and "." segments are dropped, ".." segments are kept. -/
def pcomps (s : String) : List String :=
  (splitChar '/' s).filter (fun c => c != "" && c != ".")

/-- True when the path string is absolute. -/
def isAbs (s : String) : Bool :=
  match s.data with
  | '/' :: _ => true
  | _ => false

/-- rust Path::join: an absolute right operand replaces the left operand
entirely, otherwise the right operand is appended after a slash. -/
def rjoin (a b : String) : String :=
  if isAbs b then b
  else if a.data.getLast? = some '/' then a ++ b
  else a ++ "/" ++ b

/-- rust Path::starts_with: component-wise prefix test.  Note this performs
no dot-dot resolution: "/r/../x" starts with "/r". -/
def pStartsWith (p q : String) : Bool :=
  (isAbs p == isAbs q) && (pcomps q).isPrefixOf (pcomps p)

/-- Lexical resolution of ".." components (a ".." at the filesystem root
stays at the root, as on Linux). -/
def resolveComps (l : List String) : List String :=
  l.foldl (fun acc c => if c = ".." then acc.dropLast else acc ++ [c]) []

/-- The canonical string form of an absolute path: "/" joined components
with "." and ".." resolved away. -/
def dotResolve (s : String) : String :=
  "/" ++ String.intercalate "/" (resolveComps (pcomps s))

/-- The canonical path of the parent directory of a canonical path. -/
def parentOf (s : String) : String :=
  "/" ++ String.intercalate "/" (pcomps s).dropLast

/-! ## Filesystem model

A filesystem is a list of entries keyed by canonical absolute path.  File
contents are byte lists (modelled as characters); the formatted
modification time that chrono would produce is carried as an opaque
string, since real clock time is outside the embedding. -/

structure FSEntry where
  path : String
  isDir : Bool
  content : List Char
  mtime : String
deriving DecidableEq, Repr

abbrev FS := List FSEntry

def FS.lookup (fs : FS) (p : String) : Option FSEntry :=
  fs.find? (fun e => e.path == p)

/-- rust Path::exists: the OS resolves "." and ".." before checking. -/
def fsExists (fs : FS) (p : String) : Bool :=
  (FS.lookup fs (dotResolve p)).isSome

/-- rust Path::canonicalize: resolves the path and errors when the target
does not exist. -/
def canonicalize (fs : FS) (p : String) : Option String :=
  if fsExists fs p then some (dotResolve p) else none

/-- fs::remove_file on an already-resolved path: fails on directories and
on missing entries. -/
def removeFile (fs : FS) (p : String) : Option FS :=
  match FS.lookup fs p with
  | some e => if e.isDir then none else some (fs.filter (fun x => x.path != p))
  | none => none

/-- Entries directly inside the directory at canonical path p, in
filesystem order (models fs::read_dir). -/
def childrenOf (fs : FS) (p : String) : List FSEntry :=
  fs.filter (fun x => x.path != p && parentOf x.path == p)

/-- fs::remove_dir on an already-resolved path: only empty directories can
be removed. -/
def removeDirFs (fs : FS) (p : String) : Option FS :=
  match FS.lookup fs p with
  | some e =>
      if e.isDir && (childrenOf fs p).isEmpty then
        some (fs.filter (fun x => x.path != p))
      else none
  | none => none

/-- fs::create_dir: the OS resolves the path; creation fails when the
target already exists or the parent is missing or not a directory. -/
def createDir (fs : FS) (p : String) : Option FS :=
  let cp := dotResolve p
  match FS.lookup fs cp with
  | some _ => none
  | none =>
      match FS.lookup fs (parentOf cp) with
      | some pe => if pe.isDir then some (fs ++ [⟨cp, true, [], ""⟩]) else none
      | none => none

/-- fs::rename: the OS resolves both paths; the source must exist.  A
renamed directory carries its subtree along. -/
def renameFs (fs : FS) (o n : String) : Option FS :=
  let oc := dotResolve o
  let nc := dotResolve n
  match FS.lookup fs oc with
  | none => none
  | some _ =>
      some (fs.map (fun e =>
        if e.path == oc then { e with path := nc }
        else if (oc ++ "/").data.isPrefixOf e.path.data then
          { e with path := nc ++ String.mk (e.path.data.drop oc.data.length) }
        else e))

/-! ## Data model (src/lib/session.rs and src/lib/user.rs)

session.rs declares mode, total_size, finished_size, file_name and
finished; ftp.rs additionally reads and writes session.offset and
session.aborted, so the effective TransferSession record carries those two
fields as well.  The TCP streams wrapped by TransferMode are abstracted
away: only the tag matters to the handlers' control flow. -/

inductive TransferMode
  | port
  | passive
deriving DecidableEq, Repr

structure TransferSession where
  mode : TransferMode
  total_size : Nat
  finished_size : Nat
  file_name : String
  finished : Bool
  offset : Nat
  aborted : Bool
deriving DecidableEq, Repr

def TransferSession.new (mode : TransferMode) : TransferSession :=
  ⟨mode, 0, 0, "", false, 0, false⟩

inductive UserStatus
  | Inactive
  | Logging
  | Active
deriving DecidableEq, Repr

inductive TransferType
  | ASCII
  | Binary
deriving DecidableEq, Repr

/-- An IPv4 socket address (std::net::SocketAddr restricted to the v4 form
the parser can produce). -/
structure SockAddr where
  a : Nat
  b : Nat
  c : Nat
  d : Nat
  port : Nat
deriving DecidableEq, Repr

/-- The per-connection user record.  ftp.rs addresses the working
directory directly as user.pwd (a string), so pwd is a plain field here;
PathGuard::new initialises it to the empty string. -/
structure User where
  username : String
  status : UserStatus
  addr : SockAddr
  session : Option TransferSession
  trans_type : TransferType
  pwd : String
deriving DecidableEq, Repr

/-- User::new_anonymous from src/lib/user.rs: every accepted connection
starts with this record — status is Active from the outset. -/
def User.new_anonymous (addr : SockAddr) : User :=
  ⟨"anonymous", .Active, addr, none, .ASCII, ""⟩

/-! ## Command parser (src/lib/commands.rs)

parse_command uses .unwrap() on the first whitespace token, on every PORT
field, on the PORT socket-address parse and on the ALLO numeric parse; a
failing unwrap is a panic, which we model as none.  commands.rs declares
the REST variant without a payload while server.rs's dispatcher matches
REST(offset) and ftp.rs's restart takes an offset, so the embedded variant
carries the offset and the parser fills in 0 for it. -/

inductive FtpCommand
  | USER (arg : String)
  | PASS (arg : String)
  | PORT (addr : SockAddr)
  | PASV
  | RETR (arg : String)
  | STOR (arg : String)
  | ABOR
  | QUIT
  | SYST
  | TYPE (arg : String)
  | RNFR (arg : String)
  | RNTO (arg : String)
  | PWD
  | CWD (arg : String)
  | MKD (arg : String)
  | RMD (arg : String)
  | LIST (arg : Option String)
  | REST (offset : Nat)
  | DELE (arg : String)
  | STAT (arg : Option String)
  | STOU
  | APPE (arg : String)
  | ALLO (size : Nat)
  | NOOP
  | NLST (arg : Option String)
  | CDUP
  | FEAT
  | MDTM (arg : String)
deriving DecidableEq, Repr

/-- str::parse::<u8>: digits only, value at most 255. -/
def parseU8 (s : String) : Option Nat :=
  match toNatQ s with
  | some n => if n ≤ 255 then some n else none
  | none => none

/-- str::parse::<u64>: digits only, value below 2^64. -/
def parseU64 (s : String) : Option Nat :=
  match toNatQ s with
  | some n => if n < 18446744073709551616 then some n else none
  | none => none

/-- The PORT branch of parse_command: split the argument on commas, parse
the first four fields as the IP octets, the fifth and sixth as the port
bytes.  The iterator is lazy, so fields beyond the sixth are never parsed;
any failing parse or missing field is a panic (none). -/
def portParse (arg : String) : Option SockAddr :=
  let fields := splitChar ',' arg
  match (fields.take 4).mapM parseU8,
        (fields.get? 4).bind parseU8, (fields.get? 5).bind parseU8 with
  | some [a, b, c, d], some p1, some p2 => some ⟨a, b, c, d, p1 * 256 + p2⟩
  | _, _, _ => none

def empty_to_some (s : String) : Option String :=
  if s = "" then none else some s

/-- The verb table of parse_command (the match on the first token, with
the argument already joined). -/
def command_of (cmd arg : String) : Option FtpCommand :=
  if cmd = "USER" then some (.USER arg)
    else if cmd = "PASS" then some (.PASS arg)
    else if cmd = "PORT" then (portParse arg).map (.PORT ·)
    else if cmd = "PASV" then some .PASV
    else if cmd = "RETR" then some (.RETR arg)
    else if cmd = "STOR" then some (.STOR arg)
    else if cmd = "ABOR" then some .ABOR
    else if cmd = "QUIT" then some .QUIT
    else if cmd = "SYST" then some .SYST
    else if cmd = "TYPE" then some (.TYPE arg)
    else if cmd = "RNFR" then some (.RNFR arg)
    else if cmd = "RNTO" then some (.RNTO arg)
    else if cmd = "PWD" then some .PWD
    else if cmd = "CWD" then some (.CWD arg)
    else if cmd = "MKD" then some (.MKD arg)
    else if cmd = "RMD" then some (.RMD arg)
    else if cmd = "LIST" then some (.LIST (empty_to_some arg))
    else if cmd = "REST" then some (.REST 0)
    else if cmd = "DELE" then some (.DELE arg)
    else if cmd = "STAT" then some (.STAT (empty_to_some arg))
    else if cmd = "STOU" then some .STOU
    else if cmd = "APPE" then some (.APPE arg)
    else if cmd = "ALLO" then (parseU64 arg).map (.ALLO ·)
    else if cmd = "FEAT" then some .FEAT
    else if cmd = "CDUP" then some .CDUP
    else if cmd = "MDTM" then some (.MDTM arg)
    else if cmd = "NLST" then some (.NLST (empty_to_some arg))
    else some .NOOP

/-- parse_command from src/lib/commands.rs.  none models a panic of one of
the source's .unwrap() calls: the very first token is unwrapped, so an
empty or all-whitespace line panics before any verb is examined. -/
def parse_command (req : String) : Option FtpCommand :=
  match splitWs (sTrim req) with
  | [] => none
  | cmd :: rest => command_of cmd (" ".intercalate rest)

/-! ## Command handlers (src/lib/ftp.rs)

Each handler of the FtpServer impl becomes a pure function over the
fields of the user record it actually reads, returning the control-channel
writes it performs (one list element per write_all on the control half),
the state it produces, and the error it would return to the dispatcher, if
any (handler errors are strings propagated by the ? operator).  The
sequencing of writes, checks and mutations follows the source line by
line — including the places where a failed check falls through because the
source omits a return. -/

namespace Ftp

/-- The streaming loop of retrieve (ftp.rs): read the file in 1024-byte
chunks from the current position, checking the session's aborted flag
before each chunk, and write each chunk to the data stream.  Structural
fuel makes the recursion kernel-reducible; retrLoop supplies enough. -/
def retrLoopF : Nat → Bool → List Char → Nat → List Char
  | 0, _, _, _ => []
  | fuel + 1, aborted, content, pos =>
    if aborted then []
    else
      let n := min 1024 (content.length - pos)
      if n = 0 then []
      else ((content.drop pos).take n) ++ retrLoopF fuel aborted content (pos + n)

def retrLoop (aborted : Bool) (content : List Char) (pos : Nat) : List Char :=
  retrLoopF (content.length + 1) aborted content pos

/-- The streaming loop of store_file (ftp.rs): each iteration checks the
aborted flag, reads one chunk from the data stream (the oracle chunk
list; an empty chunk is the peer closing), and writes it to the local
file.  When the file handle was produced by fs::File::open it is
read-only, so the first write fails and the handler errors out after the
chunk was already consumed.  Returns (bytes written, bytes read from the
data channel, error). -/
def storeLoop (aborted readOnly : Bool) : List (List Char) → List Char × Nat × Option String
  | [] => ([], 0, none)
  | c :: rest =>
    if aborted then ([], 0, none)
    else if c.length = 0 then ([], 0, none)
    else if readOnly then ([], c.length, some "write failed")
    else
      let r := storeLoop aborted readOnly rest
      (c ++ r.1, c.length + r.2.1, r.2.2)

/-- file_path_to_list_item (ftp.rs): one LIST or NLST line for an entry;
none when the path has no final component. -/
def file_path_to_list_item (e : FSEntry) (name_only : Bool) : Option String :=
  match (pcomps e.path).getLast? with
  | none => none
  | some name =>
    if name_only then some (name ++ "\r\n")
    else
      let sz := toString e.content.length
      let pad := String.mk (List.replicate (13 - sz.length) ' ') ++ sz
      some ((if e.isDir then "d" else "-")
        ++ (if e.isDir then "rwxr-xr-x" else "rw-r--r--")
        ++ " 1 owner group " ++ pad ++ " " ++ e.mtime ++ " " ++ name ++ "\r\n")

/-- get_list_lines (ftp.rs): all lines for a directory, or the single line
for a file. -/
def get_list_lines (fs : FS) (p : String) (name_only : Bool) : Option String :=
  match FS.lookup fs p with
  | none => none
  | some e =>
    if e.isDir then
      ((childrenOf fs p).mapM (fun c => file_path_to_list_item c name_only)).map String.join
    else file_path_to_list_item e name_only

/-- Result of a handler that streams to the data channel. -/
structure TransRes where
  replies : List String
  dataOut : List Char
  sess : Option TransferSession
  err : Option String
deriving Repr

/-- Result of store_file. -/
structure StoreRes where
  replies : List String
  fs : FS
  dataRead : Nat
  sess : Option TransferSession
  err : Option String
deriving Repr

/-- list_files (ftp.rs), shared by LIST and NLST.  The containment check
here is the canonical-then-prefix test, with an early return. -/
def list_files (root pwd : String) (sess : Option TransferSession) (fs : FS)
    (optional_dir : Option String) (name_only : Bool) : TransRes :=
  let path :=
    match optional_dir with
    | some p => rjoin (rjoin root pwd) p
    | none => rjoin root pwd
  if !(fsExists fs path) then
    ⟨["550 No such file or directory.\r\n"], [], sess, none⟩
  else
    match canonicalize fs path with
    | none => ⟨[], [], sess, some "canonicalize failed"⟩
    | some np =>
      if !(pStartsWith np root) then
        ⟨["550 Permission denied.\r\n"], [], sess, none⟩
      else
        let list := (get_list_lines fs np name_only).getD "Something wrong.\r\n"
        match sess with
        | none => ⟨[], [], none, some "No session found"⟩
        | some s =>
          ⟨["150 Opening ASCII mode data connection for file list\r\n",
            "226 Transfer complete.\r\n"],
           list.data, some { s with finished := true }, none⟩

/-- store_file (ftp.rs).  The path check is Path::starts_with on the
uncanonicalised join; the 150 reply precedes the existence checks; the
550 file-exists reply is not followed by a return, so the transfer loop
still runs against the read-only handle that fs::File::open produced. -/
def store_file (root pwd : String) (sess : Option TransferSession) (fs : FS)
    (file_name : String) (dataIn : List (List Char)) : StoreRes :=
  match sess with
  | none => ⟨[], fs, 0, none, some "No session found"⟩
  | some s0 =>
    let s1 : TransferSession := { s0 with file_name := file_name }
    let path := rjoin (rjoin root pwd) file_name
    let offset0 := s1.offset
    if !(pStartsWith path root) then
      ⟨["550 Permission denied.\r\n"], fs, 0, some s1, none⟩
    else
      let r150 := "150 Opening BINARY mode data connection for " ++ file_name ++ ".\r\n"
      if fsExists fs path then
        match FS.lookup fs (dotResolve path) with
        | none => ⟨[r150], fs, 0, some s1, some "open failed"⟩
        | some e =>
          if e.isDir then
            ⟨[r150, "550 Permission denied, the path is a directory.\r\n"],
             fs, 0, some s1, none⟩
          else
            let rsEx :=
              if offset0 = 0 then ["550 Permission denied, the file exists.\r\n"] else []
            let lr := storeLoop s1.aborted true dataIn
            match lr.2.2 with
            | some msg => ⟨[r150] ++ rsEx, fs, lr.2.1, some s1, some msg⟩
            | none =>
              if s1.aborted then
                ⟨[r150] ++ rsEx ++ ["226 Connection closed; transfer aborted.\r\n"],
                 fs, lr.2.1,
                 some { s1 with finished_size := s1.finished_size + lr.2.1 }, none⟩
              else
                ⟨[r150] ++ rsEx ++ ["226 Transfer complete.\r\n"],
                 fs, lr.2.1,
                 some { s1 with finished := true,
                                finished_size := s1.finished_size + lr.2.1 }, none⟩
      else
        let lr := storeLoop s1.aborted false dataIn
        let fs' := fs ++ [⟨dotResolve path, false, lr.1, ""⟩]
        match lr.2.2 with
        | some msg => ⟨[r150], fs', lr.2.1, some s1, some msg⟩
        | none =>
          if s1.aborted then
            ⟨[r150, "226 Connection closed; transfer aborted.\r\n"],
             fs', lr.2.1,
             some { s1 with finished_size := s1.finished_size + lr.2.1 }, none⟩
          else
            ⟨[r150, "226 Transfer complete.\r\n"],
             fs', lr.2.1,
             some { s1 with finished := true,
                            finished_size := s1.finished_size + lr.2.1 }, none⟩

/-- retrieve (ftp.rs).  There is no containment check at all; the missing
550 File-not-found reply falls through without a return; a positive
session offset below the file size seeks before streaming, while an
offset at or past the size replies 550 Offset out of range. -/
def retrieve (root pwd : String) (sess : Option TransferSession) (fs : FS)
    (file_name : String) : TransRes :=
  match sess with
  | none => ⟨[], [], none, some "No session found"⟩
  | some s0 =>
    let s1 : TransferSession := { s0 with file_name := file_name }
    let path := rjoin (rjoin root pwd) file_name
    let offset := s1.offset
    let rs0 := if fsExists fs path then [] else ["550 File not found.\r\n"]
    let rs1 := rs0 ++ ["150 Opening BINARY mode data connection for " ++ file_name ++ ".\r\n"]
    match FS.lookup fs (dotResolve path) with
    | none => ⟨rs1, [], some s1, some "open failed"⟩
    | some e =>
      if 0 < offset ∧ e.content.length ≤ offset then
        ⟨rs1 ++ ["550 Offset out of range.\r\n"], [], some s1, none⟩
      else
        let sent := retrLoop s1.aborted e.content offset
        if s1.aborted then
          ⟨rs1 ++ ["226 Connection closed; transfer aborted.\r\n"], sent,
           some { s1 with finished_size := s1.finished_size + sent.length }, none⟩
        else
          ⟨rs1 ++ ["226 Transfer complete.\r\n"], sent,
           some { s1 with finished := true,
                          finished_size := s1.finished_size + sent.length }, none⟩

/-- make_dir (ftp.rs): no containment check at all. -/
def make_dir (root pwd : String) (fs : FS) (dir_name : String) : List String × FS :=
  match createDir fs (rjoin (rjoin root pwd) dir_name) with
  | some fs' => (["257 Directory created.\r\n"], fs')
  | none => (["550 Permission denied.\r\n"], fs)

/-- remove_dir (ftp.rs): the 550 and 553 checks lack returns, so the
removal is attempted regardless of their outcome. -/
def remove_dir (root pwd : String) (fs : FS) (dir_name : String) : List String × FS :=
  match canonicalize fs (rjoin (rjoin root pwd) dir_name) with
  | some np =>
    let rs1 := if !(pStartsWith np root) then ["550 Permission denied.\r\n"] else []
    let rs2 := if (FS.lookup fs np).isSome then [] else ["553 Not found.\r\n"]
    match removeDirFs fs np with
    | some fs' => (rs1 ++ rs2 ++ ["200 Remove completed.\r\n"], fs')
    | none => (rs1 ++ rs2 ++ ["550 Failed to remove directory.\r\n"], fs)
  | none => (["550 Path error.\r\n"], fs)

/-- delete (ftp.rs): the containment check is Path::starts_with on the
uncanonicalised join, after an existence check that does resolve dots;
fs::remove_file then operates on the resolved target. -/
def delete (root pwd : String) (fs : FS) (file_name : String) : List String × FS :=
  let path := rjoin (rjoin root pwd) file_name
  if !(fsExists fs path) then (["553 Not found.\r\n"], fs)
  else if !(pStartsWith path root) then (["550 Permission denied.\r\n"], fs)
  else
    match removeFile fs (dotResolve path) with
    | some fs' => (["250 Requested file action okay, completed.\r\n"], fs')
    | none => (["550 Failed to remove file.\r\n"], fs)

/-- cwd (ftp.rs): on a target that canonicalises outside the root the 550
branch runs twice (the check is duplicated in the source) but neither copy
returns, so the working directory is still overwritten and the 250 reply
still sent. -/
def cwd (root pwd : String) (fs : FS) (dir_name : String) : List String × String :=
  let dir := String.mk (dir_name.data.dropWhile (fun c => c = '/'))
  if dir = "" then
    (["250 Requested file action okay, completed.\r\n"], ".")
  else if dir = "." then
    (["250 PWD not changed.\r\n"], pwd)
  else
    match canonicalize fs (rjoin (rjoin root pwd) dir) with
    | some np =>
      let rs :=
        if !(pStartsWith np root) then
          ["550 Permission denied.\r\n", "550 Permission denied.\r\n"]
        else []
      (rs ++ ["250 Requested file action okay, completed.\r\n"], sReplace np root ".")
    | none => (["550 Permission denied.\r\n"], pwd)

/-- pwd (ftp.rs). -/
def pwd (p : String) : List String :=
  ["257 \"" ++ p ++ "\" is the current directory.\r\n"]

/-- set_type (ftp.rs): returns the replies and the new transfer type when
one was set. -/
def set_type (t : String) : List String × Option TransferType :=
  let tu := String.mk (t.data.map Char.toUpper)
  if tu = "A" then (["200 Type set to ASCII.\r\n"], some .ASCII)
  else if tu = "I" then (["200 Type set to Binary.\r\n"], some .Binary)
  else (["504 Command not implemented for that parameter.\r\n"], none)

/-- passive_mode (ftp.rs): the 227 reply is written as soon as a listener
binds; the accept and the installation of the session happen on a spawned
background task, so the handler itself leaves the session unchanged.  The
listener address is an oracle; none models generate_pasv_addr failing. -/
def passive_mode (sess : Option TransferSession) (pasvAddr : Option SockAddr) :
    List String × Option TransferSession × Option String :=
  match pasvAddr with
  | some a =>
    let ip := toString a.a ++ "," ++ toString a.b ++ "," ++ toString a.c ++ "," ++ toString a.d
    (["227 Entering Passive Mode (" ++ ip ++ "," ++ toString (a.port / 256) ++ ","
        ++ toString (a.port % 256) ++ ")\r\n"], sess, none)
  | none => ([], sess, some "Failed to generate PASV address")

/-- port_mode (ftp.rs): dial the client address (outcome is an oracle); on
success install a fresh Port session and reply 200. -/
def port_mode (sess : Option TransferSession) (connectOk : Bool) :
    List String × Option TransferSession × Option String :=
  if connectOk then
    (["200 PORT command successful.\r\n"], some (TransferSession.new .port), none)
  else ([], sess, some "connect failed")

/-- quit (ftp.rs): drop the session, say goodbye, shut the control write
half. -/
def quit : List String := ["221 Goodbye.\r\n"]

def noop : List String := ["200 NOOP ok.\r\n"]

/-- user (ftp.rs): the reply; the dispatcher records the username and the
Logging status. -/
def user (_ : String) : List String := ["331 User name okay, need password.\r\n"]

/-- pass (ftp.rs): any password is accepted; status becomes Active. -/
def pass (_ : String) : List String := ["230 User logged in, proceed.\r\n"]

/-- abort (ftp.rs): status is set to Active before the session is even
looked up; with a session, its aborted flag is raised and 226 sent. -/
def abort (sess : Option TransferSession) :
    List String × Option TransferSession × Option String :=
  match sess with
  | none => ([], none, some "No session found")
  | some s => (["226 ABOR command processed.\r\n"], some { s with aborted := true }, none)

def system_info : List String := ["215 UNIX Type: L8\r\n"]

/-- rename_from (ftp.rs): records the name in the session, nothing else. -/
def rename_from (sess : Option TransferSession) (file_name : String) :
    List String × Option TransferSession × Option String :=
  match sess with
  | none => ([], none, some "No session found")
  | some s =>
    (["350 Requested file action pending further information.\r\n"],
     some { s with file_name := file_name }, none)

/-- rename_to (ftp.rs): renames root/pwd/session.file_name to the target;
there is no 503 path and no check that an RNFR ever ran. -/
def rename_to (root pwd : String) (sess : Option TransferSession) (fs : FS)
    (file_name : String) : StoreRes :=
  match sess with
  | none => ⟨[], fs, 0, none, some "No session found"⟩
  | some s =>
    let old_path := rjoin (rjoin root pwd) s.file_name
    let new_path := rjoin (rjoin root pwd) file_name
    match renameFs fs old_path new_path with
    | none => ⟨[], fs, 0, some s, some "rename failed"⟩
    | some fs' =>
      ⟨["250 Requested file action okay, completed.\r\n"], fs', 0,
       some { s with file_name := file_name }, none⟩

/-- restart (ftp.rs): stores the REST offset into the session. -/
def restart (sess : Option TransferSession) (offset : Nat) :
    List String × Option TransferSession × Option String :=
  match sess with
  | none => ([], none, some "No session found")
  | some s =>
    (["350 Requested file action pending further information.\r\n"],
     some { s with offset := offset }, none)

/-- status (ftp.rs): with a path, the 550 containment branch lacks a
return; without a path, a content string is built but never written. -/
def status (root pwd : String) (fs : FS) (optional_path : Option String) :
    List String × Option String :=
  match optional_path with
  | some path_str =>
    let path := rjoin (rjoin root pwd) path_str
    if !(fsExists fs path) then (["553 Not found.\r\n"], none)
    else
      match canonicalize fs path with
      | none => ([], some "canonicalize failed")
      | some np =>
        let rs := if !(pStartsWith np root) then ["550 Permission denied.\r\n"] else []
        let list := (get_list_lines fs np false).getD "Something wrong.\r\n"
        (rs ++ ["213-Status of " ++ path_str ++ ":\r\n", list, "213 End of status.\r\n"],
         none)
  | none => (["211-Status of the server:\r\n", "211 End of status.\r\n"], none)

/-- store_unique (ftp.rs): store under a generated UUID name (oracle). -/
def store_unique (root pwd : String) (sess : Option TransferSession) (fs : FS)
    (uuid : String) (dataIn : List (List Char)) : StoreRes :=
  store_file root pwd sess fs uuid dataIn

/-- append (ftp.rs): sets the session offset to u64::MAX, then runs
store_file (which clamps it to the file size). -/
def append (root pwd : String) (sess : Option TransferSession) (fs : FS)
    (file_name : String) (dataIn : List (List Char)) : StoreRes :=
  match sess with
  | none => ⟨[], fs, 0, none, some "No session found"⟩
  | some s =>
    let s1 : TransferSession :=
      { s with file_name := file_name, offset := 18446744073709551615 }
    store_file root pwd (some s1) fs file_name dataIn

def allocate : List String := ["200 ALLO command okay.\r\n"]

/-- feat (ftp.rs): four separate writes on the control channel. -/
def feat : List String :=
  ["211-Features:\r\n", " REST STREAM\r\n", " MDTM\r\n", "211 End.\r\n"]

/-- PathBuf::pop via Path::parent on the model: drop the last component;
none when there is none to drop. -/
def ppop (s : String) : Option String :=
  match pcomps s with
  | [] => none
  | cs => some ("/" ++ String.intercalate "/" cs.dropLast)

/-- cd_up (ftp.rs): pops the joined path; the failure branches write 550
but fall through to the unconditional 250. -/
def cd_up (root pwd : String) (fs : FS) : List String × String × Option String :=
  match ppop (rjoin root pwd) with
  | some parent =>
    match canonicalize fs parent with
    | none => ([], pwd, some "canonicalize failed")
    | some np =>
      if pStartsWith np root then
        (["250 Directory successfully changed.\r\n"], sReplace np root ".", none)
      else
        (["550 Permission denied.\r\n", "250 Directory successfully changed.\r\n"],
         pwd, none)
  | none =>
    (["550 Permission denied.\r\n", "250 Directory successfully changed.\r\n"], pwd, none)

/-- get_modify_timestamp (ftp.rs): same uncanonicalised prefix check as
delete; the reply carries the chrono-formatted mtime. -/
def get_modify_timestamp (root pwd : String) (fs : FS) (file_name : String) :
    List String × Option String :=
  let path := rjoin (rjoin root pwd) file_name
  if !(fsExists fs path) then (["553 Not found.\r\n"], none)
  else if !(pStartsWith path root) then (["550 Permission denied.\r\n"], none)
  else
    match FS.lookup fs (dotResolve path) with
    | some e => (["213 " ++ e.mtime ++ "\r\n"], none)
    | none => ([], some "metadata failed")

end Ftp

/-! ## Dispatcher (src/lib/server.rs)

Server::dispatch matches the parsed command and calls the handler on the
shared user record.  There is no authentication check anywhere in
dispatch: every command reaches its handler whatever User.status is.
Oracles carry the network nondeterminism the handlers consume. -/

structure Oracles where
  connectOk : Bool
  pasvAddr : Option SockAddr
  uuid : String
  dataIn : List (List Char)
deriving Repr

/-- The outcome of dispatching one command: control-channel writes
(one element per write_all), the updated user, the updated filesystem,
bytes written to and read from the data channel, and the error the
handler returned, if any. -/
structure HRes where
  replies : List String
  user : User
  fs : FS
  dataOut : List Char
  dataRead : Nat
  err : Option String
deriving Repr

def dispatch (root : String) (cmd : FtpCommand) (u : User) (fs : FS)
    (orc : Oracles) : HRes :=
  match cmd with
  | .USER name =>
    ⟨Ftp.user name, { u with username := name, status := .Logging }, fs, [], 0, none⟩
  | .PASS p => ⟨Ftp.pass p, { u with status := .Active }, fs, [], 0, none⟩
  | .PORT _ =>
    let r := Ftp.port_mode u.session orc.connectOk
    ⟨r.1, { u with session := r.2.1 }, fs, [], 0, r.2.2⟩
  | .PASV =>
    let r := Ftp.passive_mode u.session orc.pasvAddr
    ⟨r.1, { u with session := r.2.1 }, fs, [], 0, r.2.2⟩
  | .RETR f =>
    let r := Ftp.retrieve root u.pwd u.session fs f
    ⟨r.replies, { u with session := r.sess }, fs, r.dataOut, 0, r.err⟩
  | .STOR f =>
    let r := Ftp.store_file root u.pwd u.session fs f orc.dataIn
    ⟨r.replies, { u with session := r.sess }, r.fs, [], r.dataRead, r.err⟩
  | .ABOR =>
    let r := Ftp.abort u.session
    ⟨r.1, { u with status := .Active, session := r.2.1 }, fs, [], 0, r.2.2⟩
  | .QUIT => ⟨Ftp.quit, { u with session := none }, fs, [], 0, none⟩
  | .SYST => ⟨Ftp.system_info, u, fs, [], 0, none⟩
  | .TYPE t =>
    let r := Ftp.set_type t
    ⟨r.1, { u with trans_type := r.2.getD u.trans_type }, fs, [], 0, none⟩
  | .RNFR f =>
    let r := Ftp.rename_from u.session f
    ⟨r.1, { u with session := r.2.1 }, fs, [], 0, r.2.2⟩
  | .RNTO f =>
    let r := Ftp.rename_to root u.pwd u.session fs f
    ⟨r.replies, { u with session := r.sess }, r.fs, [], 0, r.err⟩
  | .PWD => ⟨Ftp.pwd u.pwd, u, fs, [], 0, none⟩
  | .CWD d =>
    let r := Ftp.cwd root u.pwd fs d
    ⟨r.1, { u with pwd := r.2 }, fs, [], 0, none⟩
  | .MKD d =>
    let r := Ftp.make_dir root u.pwd fs d
    ⟨r.1, u, r.2, [], 0, none⟩
  | .RMD d =>
    let r := Ftp.remove_dir root u.pwd fs d
    ⟨r.1, u, r.2, [], 0, none⟩
  | .LIST od =>
    let r := Ftp.list_files root u.pwd u.session fs od false
    ⟨r.replies, { u with session := r.sess }, fs, r.dataOut, 0, r.err⟩
  | .REST off =>
    let r := Ftp.restart u.session off
    ⟨r.1, { u with session := r.2.1 }, fs, [], 0, r.2.2⟩
  | .DELE f =>
    let r := Ftp.delete root u.pwd fs f
    ⟨r.1, u, r.2, [], 0, none⟩
  | .STAT op =>
    let r := Ftp.status root u.pwd fs op
    ⟨r.1, u, fs, [], 0, r.2⟩
  | .STOU =>
    let r := Ftp.store_unique root u.pwd u.session fs orc.uuid orc.dataIn
    ⟨r.replies, { u with session := r.sess }, r.fs, [], r.dataRead, r.err⟩
  | .APPE f =>
    let r := Ftp.append root u.pwd u.session fs f orc.dataIn
    ⟨r.replies, { u with session := r.sess }, r.fs, [], r.dataRead, r.err⟩
  | .ALLO _ => ⟨Ftp.allocate, u, fs, [], 0, none⟩
  | .NOOP => ⟨Ftp.noop, u, fs, [], 0, none⟩
  | .NLST od =>
    let r := Ftp.list_files root u.pwd u.session fs od true
    ⟨r.replies, { u with session := r.sess }, fs, r.dataOut, 0, r.err⟩
  | .CDUP =>
    let r := Ftp.cd_up root u.pwd fs
    ⟨r.1, { u with pwd := r.2.1 }, fs, [], 0, r.2.2⟩
  | .FEAT => ⟨Ftp.feat, u, fs, [], 0, none⟩
  | .MDTM f =>
    let r := Ftp.get_modify_timestamp root u.pwd fs f
    ⟨r.1, u, fs, [], 0, r.2⟩

/-- The spawned task wrapping dispatch in Server::handle: when the handler
returned an error, one further control write "550 Error occurs: e" (with
no CRLF) is made after the handler's own writes. -/
def handleReplies (r : HRes) : List String :=
  r.replies ++ (match r.err with
    | some e => ["550 Error occurs: " ++ e]
    | none => [])

/-! ## The control-loop ordering model (src/lib/server.rs, Server::handle)

Server::handle loops: read one command from the control socket, then
tokio::spawn the dispatch-and-reply work and immediately read the next
command (only QUIT is handled inline).  We model the observable
control-channel events of one connection processing commands 0..n-1: the
loop task reads commands strictly in order, and each spawned handler task
writes its terminal reply at some later point, unordered with respect to
the loop.  A trace is any interleaving the two task kinds can produce. -/

inductive Ev
  | read (i : Nat)
  | reply (i : Nat)
deriving DecidableEq, Repr

structure LoopSt where
  nextRead : Nat
  pending : List Nat
deriving DecidableEq, Repr

/-- One observable step of the connection: the loop may read command
nextRead when commands remain (spawning its handler), and any spawned,
not-yet-replied handler may write its reply. -/
def traceStep (n : Nat) : Option LoopSt → Ev → Option LoopSt
  | some s, .read i =>
    if i = s.nextRead ∧ s.nextRead < n then
      some ⟨s.nextRead + 1, s.pending ++ [s.nextRead]⟩
    else none
  | some s, .reply i =>
    if i ∈ s.pending then some ⟨s.nextRead, s.pending.erase i⟩ else none
  | none, _ => none

/-- A complete trace of a connection that received n commands: every
command is read and every handler has written its reply. -/
def handleTrace (n : Nat) (t : List Ev) : Prop :=
  t.foldl (traceStep n) (some ⟨0, []⟩) = some ⟨n, []⟩

instance (n : Nat) (t : List Ev) : Decidable (handleTrace n t) := by
  unfold handleTrace; infer_instance

/-! ## Concrete fixtures used by the theorems -/

/-- A demonstration filesystem: the configured root /srv/root sits inside
/srv; /srv/secret is a file outside the root; sub and f live inside the
root; /etc exists as on any host. -/
def demoFs : FS :=
  [⟨"/srv", true, [], ""⟩, ⟨"/srv/root", true, [], ""⟩,
   ⟨"/srv/secret", false, "data".data, ""⟩, ⟨"/srv/root/sub", true, [], ""⟩,
   ⟨"/srv/root/f", false, "abc".data, ""⟩, ⟨"/etc", true, [], ""⟩]

def demoAddr : SockAddr := ⟨127, 0, 0, 1, 50000⟩

/-- A logged-in user whose working directory is the root. -/
def demoUser : User := ⟨"anonymous", .Active, demoAddr, none, .ASCII, "."⟩

/-- A user that issued USER (status Logging) and never completed PASS. -/
def demoLogging : User := ⟨"anonymous", .Logging, demoAddr, none, .ASCII, "."⟩

def demoOrc : Oracles := ⟨true, none, "u", []⟩

/-- A root holding one ten-byte file. -/
def demoFsTen : FS :=
  [⟨"/srv/root", true, [], ""⟩, ⟨"/srv/root/f", false, "abcdefghij".data, ""⟩]

/-- A root holding one empty file. -/
def demoFsEmpty : FS :=
  [⟨"/srv/root", true, [], ""⟩, ⟨"/srv/root/f", false, [], ""⟩]

/-! ## Helper lemmas -/

/-- The retrieve loop, unaborted, streams exactly the file suffix from the
seek position. -/
theorem retrLoopF_drop (content : List Char) :
    ∀ (fuel pos : Nat), content.length - pos < fuel →
      Ftp.retrLoopF fuel false content pos = content.drop pos := by
  intro fuel
  induction fuel with
  | zero => intro pos h; omega
  | succ fuel ih =>
    intro pos h
    rw [Ftp.retrLoopF]
    simp only [Bool.false_eq_true, if_false]
    by_cases hn : min 1024 (content.length - pos) = 0
    · rw [if_pos hn]
      have hle : content.length ≤ pos := by omega
      exact (List.drop_eq_nil_of_le hle).symm
    · rw [if_neg hn]
      rw [ih (pos + min 1024 (content.length - pos)) (by omega)]
      rw [← List.drop_drop]
      exact List.take_append_drop _ _

theorem retrLoop_drop (aborted : Bool) (content : List Char) (pos : Nat)
    (hab : aborted = false) :
    Ftp.retrLoop aborted content pos = content.drop pos := by
  subst hab
  exact retrLoopF_drop content (content.length + 1) pos (by omega)

/-- The verb table returns a command for every verb except the two whose
argument parse can panic. -/
theorem command_of_isSome (cmd arg : String) (hp : cmd ≠ "PORT") (ha : cmd ≠ "ALLO") :
    (command_of cmd arg).isSome = true := by
  unfold command_of
  rcases eq_or_ne cmd "USER" with h | h
  · rw [if_pos h]; rfl
  rw [if_neg h]; clear h
  rcases eq_or_ne cmd "PASS" with h | h
  · rw [if_pos h]; rfl
  rw [if_neg h]; clear h
  rcases eq_or_ne cmd "PORT" with h | h
  · exact absurd h hp
  rw [if_neg h]; clear h
  rcases eq_or_ne cmd "PASV" with h | h
  · rw [if_pos h]; rfl
  rw [if_neg h]; clear h
  rcases eq_or_ne cmd "RETR" with h | h
  · rw [if_pos h]; rfl
  rw [if_neg h]; clear h
  rcases eq_or_ne cmd "STOR" with h | h
  · rw [if_pos h]; rfl
  rw [if_neg h]; clear h
  rcases eq_or_ne cmd "ABOR" with h | h
  · rw [if_pos h]; rfl
  rw [if_neg h]; clear h
  rcases eq_or_ne cmd "QUIT" with h | h
  · rw [if_pos h]; rfl
  rw [if_neg h]; clear h
  rcases eq_or_ne cmd "SYST" with h | h
  · rw [if_pos h]; rfl
  rw [if_neg h]; clear h
  rcases eq_or_ne cmd "TYPE" with h | h
  · rw [if_pos h]; rfl
  rw [if_neg h]; clear h
  rcases eq_or_ne cmd "RNFR" with h | h
  · rw [if_pos h]; rfl
  rw [if_neg h]; clear h
  rcases eq_or_ne cmd "RNTO" with h | h
  · rw [if_pos h]; rfl
  rw [if_neg h]; clear h
  rcases eq_or_ne cmd "PWD" with h | h
  · rw [if_pos h]; rfl
  rw [if_neg h]; clear h
  rcases eq_or_ne cmd "CWD" with h | h
  · rw [if_pos h]; rfl
  rw [if_neg h]; clear h
  rcases eq_or_ne cmd "MKD" with h | h
  · rw [if_pos h]; rfl
  rw [if_neg h]; clear h
  rcases eq_or_ne cmd "RMD" with h | h
  · rw [if_pos h]; rfl
  rw [if_neg h]; clear h
  rcases eq_or_ne cmd "LIST" with h | h
  · rw [if_pos h]; rfl
  rw [if_neg h]; clear h
  rcases eq_or_ne cmd "REST" with h | h
  · rw [if_pos h]; rfl
  rw [if_neg h]; clear h
  rcases eq_or_ne cmd "DELE" with h | h
  · rw [if_pos h]; rfl
  rw [if_neg h]; clear h
  rcases eq_or_ne cmd "STAT" with h | h
  · rw [if_pos h]; rfl
  rw [if_neg h]; clear h
  rcases eq_or_ne cmd "STOU" with h | h
  · rw [if_pos h]; rfl
  rw [if_neg h]; clear h
  rcases eq_or_ne cmd "APPE" with h | h
  · rw [if_pos h]; rfl
  rw [if_neg h]; clear h
  rcases eq_or_ne cmd "ALLO" with h | h
  · exact absurd h ha
  rw [if_neg h]; clear h
  rcases eq_or_ne cmd "FEAT" with h | h
  · rw [if_pos h]; rfl
  rw [if_neg h]; clear h
  rcases eq_or_ne cmd "CDUP" with h | h
  · rw [if_pos h]; rfl
  rw [if_neg h]; clear h
  rcases eq_or_ne cmd "MDTM" with h | h
  · rw [if_pos h]; rfl
  rw [if_neg h]; clear h
  rcases eq_or_ne cmd "NLST" with h | h
  · rw [if_pos h]; rfl
  rw [if_neg h]; clear h
  rfl

theorem traceStep_none_eq (n : Nat) (e : Ev) : traceStep n none e = none := by
  cases e <;> rfl

theorem foldl_traceStep_none (n : Nat) (t : List Ev) :
    t.foldl (traceStep n) none = none := by
  induction t with
  | nil => rfl
  | cons e rest ih => rw [List.foldl_cons, traceStep_none_eq]; exact ih

/-- Along any run of the control loop, a reply to command i is preceded by
the read of command i, unless i was already pending at the start. -/
theorem trace_reply_has_read (n : Nat) :
    ∀ (t₁ : List Ev) (s : LoopSt) (i : Nat) (t₂ : List Ev) (s' : LoopSt),
      (t₁ ++ Ev.reply i :: t₂).foldl (traceStep n) (some s) = some s' →
      i ∈ s.pending ∨ Ev.read i ∈ t₁ := by
  intro t₁
  induction t₁ with
  | nil =>
    intro s i t₂ s' h
    by_cases hm : i ∈ s.pending
    · exact Or.inl hm
    · exfalso
      rw [List.nil_append, List.foldl_cons] at h
      have hstep : traceStep n (some s) (Ev.reply i) = none := by
        simp [traceStep, hm]
      rw [hstep, foldl_traceStep_none] at h
      exact Option.noConfusion h
  | cons e rest ih =>
    intro s i t₂ s' h
    rw [List.cons_append, List.foldl_cons] at h
    cases e with
    | read k =>
      by_cases hc : k = s.nextRead ∧ s.nextRead < n
      · have hstep : traceStep n (some s) (Ev.read k)
            = some ⟨s.nextRead + 1, s.pending ++ [s.nextRead]⟩ := by
          simp [traceStep, hc]
        rw [hstep] at h
        rcases ih _ i t₂ s' h with hp | hr
        · rcases List.mem_append.mp hp with hp | hp
          · exact Or.inl hp
          · have : i = s.nextRead := by simpa using hp
            exact Or.inr (by simp [this, hc.1])
        · exact Or.inr (List.mem_cons_of_mem _ hr)
      · exfalso
        have hstep : traceStep n (some s) (Ev.read k) = none := by
          simp only [traceStep, if_neg hc]
        rw [hstep, foldl_traceStep_none] at h
        exact Option.noConfusion h
    | reply k =>
      by_cases hm : k ∈ s.pending
      · have hstep : traceStep n (some s) (Ev.reply k)
            = some ⟨s.nextRead, s.pending.erase k⟩ := by
          simp [traceStep, hm]
        rw [hstep] at h
        rcases ih _ i t₂ s' h with hp | hr
        · exact Or.inl (List.mem_of_mem_erase hp)
        · exact Or.inr (List.mem_cons_of_mem _ hr)
      · exfalso
        have hstep : traceStep n (some s) (Ev.reply k) = none := by
          simp [traceStep, hm]
        rw [hstep, foldl_traceStep_none] at h
        exact Option.noConfusion h

/-- Along any run, every command read later than the current state carries
an index at least the state's read cursor. -/
theorem trace_read_lb (n : Nat) :
    ∀ (t₁ : List Ev) (s : LoopSt) (i : Nat) (t₂ : List Ev) (s' : LoopSt),
      (t₁ ++ Ev.read i :: t₂).foldl (traceStep n) (some s) = some s' →
      s.nextRead ≤ i := by
  intro t₁
  induction t₁ with
  | nil =>
    intro s i t₂ s' h
    rw [List.nil_append, List.foldl_cons] at h
    by_cases hc : i = s.nextRead ∧ s.nextRead < n
    · omega
    · exfalso
      have hstep : traceStep n (some s) (Ev.read i) = none := by
        simp only [traceStep, if_neg hc]
      rw [hstep, foldl_traceStep_none] at h
      exact Option.noConfusion h
  | cons e rest ih =>
    intro s i t₂ s' h
    rw [List.cons_append, List.foldl_cons] at h
    cases e with
    | read k =>
      by_cases hc : k = s.nextRead ∧ s.nextRead < n
      · have hstep : traceStep n (some s) (Ev.read k)
            = some ⟨s.nextRead + 1, s.pending ++ [s.nextRead]⟩ := by
          simp [traceStep, hc]
        rw [hstep] at h
        have := ih _ i t₂ s' h
        simp at this
        omega
      · exfalso
        have hstep : traceStep n (some s) (Ev.read k) = none := by
          simp only [traceStep, if_neg hc]
        rw [hstep, foldl_traceStep_none] at h
        exact Option.noConfusion h
    | reply k =>
      by_cases hm : k ∈ s.pending
      · have hstep : traceStep n (some s) (Ev.reply k)
            = some ⟨s.nextRead, s.pending.erase k⟩ := by
          simp [traceStep, hm]
        rw [hstep] at h
        exact ih ⟨s.nextRead, s.pending.erase k⟩ i t₂ s' h
      · exfalso
        have hstep : traceStep n (some s) (Ev.reply k) = none := by
          simp [traceStep, hm]
        rw [hstep, foldl_traceStep_none] at h
        exact Option.noConfusion h

theorem trace_prefix_some (n : Nat) (a b : List Ev) (s s' : LoopSt)
    (h : (a ++ b).foldl (traceStep n) (some s) = some s') :
    ∃ sm, a.foldl (traceStep n) (some s) = some sm
      ∧ b.foldl (traceStep n) (some sm) = some s' := by
  rw [List.foldl_append] at h
  cases ha : a.foldl (traceStep n) (some s) with
  | none => rw [ha, foldl_traceStep_none] at h; exact Option.noConfusion h
  | some sm => exact ⟨sm, rfl, by rw [ha] at h; exact h⟩

/-- Commands are read in strictly increasing order in every complete
trace. -/
theorem trace_reads_ordered (n : Nat) (t : List Ev) (ht : handleTrace n t)
    (t₁ t₂ t₃ : List Ev) (i j : Nat)
    (hsplit : t = t₁ ++ Ev.read i :: (t₂ ++ Ev.read j :: t₃)) : i < j := by
  unfold handleTrace at ht
  rw [hsplit] at ht
  obtain ⟨s₁, h₁, h₂⟩ := trace_prefix_some n t₁ _ _ _ ht
  rw [List.foldl_cons] at h₂
  by_cases hc : i = s₁.nextRead ∧ s₁.nextRead < n
  · have hstep : traceStep n (some s₁) (Ev.read i)
        = some ⟨s₁.nextRead + 1, s₁.pending ++ [s₁.nextRead]⟩ := by
      simp [traceStep, hc]
    rw [hstep] at h₂
    have := trace_read_lb n t₂ _ j _ _ h₂
    simp at this
    omega
  · exfalso
    have hstep : traceStep n (some s₁) (Ev.read i) = none := by
      simp only [traceStep, if_neg hc]
    rw [hstep, foldl_traceStep_none] at h₂
    exact Option.noConfusion h₂

/-! ## Claim theorems -/

/-- C1: the path-sandbox claim fails on the DELE handler.  With the root
/srv/root, working directory at the root, and a file at /srv/secret, the
client path "../secret" passes delete's validation (the handler replies
250 and removes the file) although its canonicalisation /srv/secret is
not the root or a descendant of it: delete checks Path::starts_with on
the uncanonicalised join, which the ".." component passes. -/
theorem delete_accepts_escaping_path :
    (Ftp.delete "/srv/root" "." demoFs "../secret").1
        = ["250 Requested file action okay, completed.\r\n"]
      ∧ FS.lookup demoFs "/srv/secret" = some ⟨"/srv/secret", false, "data".data, ""⟩
      ∧ FS.lookup (Ftp.delete "/srv/root" "." demoFs "../secret").2 "/srv/secret" = none
      ∧ dotResolve (rjoin (rjoin "/srv/root" ".") "../secret") = "/srv/secret"
      ∧ pStartsWith "/srv/secret" "/srv/root" = false := by decide

/-- C2: a CWD whose target canonicalises outside the root does reply 550
Permission denied, but the handler then falls through (the duplicated
containment check has no return), overwrites the working directory with
the escaped absolute path, and replies 250: the working directory is not
unchanged. -/
theorem cwd_escape_mutates_pwd :
    Ftp.cwd "/srv/root" "." demoFs "../../etc"
        = (["550 Permission denied.\r\n", "550 Permission denied.\r\n",
            "250 Requested file action okay, completed.\r\n"], "/etc")
      ∧ (dispatch "/srv/root" (.CWD "../../etc") demoUser demoFs demoOrc).user.pwd = "/etc"
      ∧ demoUser.pwd = "."
      ∧ pStartsWith "/etc" "/srv/root" = false := by decide

/-- C3: the one-terminal-reply-per-command claim fails: a single CWD whose
target canonicalises outside the root produces three replies on the
control channel (550, 550, 250), because the failed containment check
does not return. -/
theorem cwd_escape_reply_count :
    ((dispatch "/srv/root" (.CWD "../../etc") demoUser demoFs demoOrc).replies).length = 3
      ∧ (dispatch "/srv/root" (.CWD "../../etc") demoUser demoFs demoOrc).replies
          ≠ [((dispatch "/srv/root" (.CWD "../../etc") demoUser demoFs demoOrc).replies).headD ""]
    := by decide

/-- C4 counterexample: a CWD received while the user's status is Logging
(USER issued, PASS never completed) is not rejected with 530: its handler
runs, the working directory changes, and the only reply is 250. -/
theorem dispatch_logging_cwd_executes :
    (dispatch "/srv/root" (.CWD "sub") demoLogging demoFs demoOrc).replies
        = ["250 Requested file action okay, completed.\r\n"]
      ∧ (dispatch "/srv/root" (.CWD "sub") demoLogging demoFs demoOrc).user.pwd = "./sub"
      ∧ demoLogging.pwd = "."
      ∧ demoLogging.status ≠ .Active
      ∧ "530 Not logged in.\r\n"
          ∉ (dispatch "/srv/root" (.CWD "sub") demoLogging demoFs demoOrc).replies := by
  decide

/-- C4 (amended): the dispatcher contains no authentication gate: for
every command, the replies, filesystem effect, data-channel traffic and
handler error are identical whatever the user's status — a command
received while not Active is executed exactly as when Active.  Moreover
every accepted connection starts with an anonymous user whose status is
already Active. -/
theorem dispatch_ignores_status (root : String) (cmd : FtpCommand) (u : User) (fs : FS)
    (orc : Oracles) (st₁ st₂ : UserStatus) :
    ((dispatch root cmd { u with status := st₁ } fs orc).replies
        = (dispatch root cmd { u with status := st₂ } fs orc).replies
      ∧ (dispatch root cmd { u with status := st₁ } fs orc).fs
        = (dispatch root cmd { u with status := st₂ } fs orc).fs
      ∧ (dispatch root cmd { u with status := st₁ } fs orc).dataOut
        = (dispatch root cmd { u with status := st₂ } fs orc).dataOut
      ∧ (dispatch root cmd { u with status := st₁ } fs orc).dataRead
        = (dispatch root cmd { u with status := st₂ } fs orc).dataRead
      ∧ (dispatch root cmd { u with status := st₁ } fs orc).err
        = (dispatch root cmd { u with status := st₂ } fs orc).err)
    ∧ (∀ a : SockAddr, (User.new_anonymous a).status = .Active) := by
  constructor
  · cases cmd <;> exact ⟨rfl, rfl, rfl, rfl, rfl⟩
  · intro _; rfl

/-- C5: an existing regular file stored with session offset 0 does get the
550 file-exists reply, but after a 150 and without a return: the handler
then still reads from the data channel (here two bytes) before failing on
the read-only handle.  The file's content is unchanged. -/
theorem store_existing_offset_zero_reads_data :
    (Ftp.store_file "/srv/root" "." (some (TransferSession.new .port)) demoFs "f"
        [['X', 'Y']]).replies
        = ["150 Opening BINARY mode data connection for f.\r\n",
           "550 Permission denied, the file exists.\r\n"]
      ∧ (Ftp.store_file "/srv/root" "." (some (TransferSession.new .port)) demoFs "f"
          [['X', 'Y']]).dataRead = 2
      ∧ (Ftp.store_file "/srv/root" "." (some (TransferSession.new .port)) demoFs "f"
          [['X', 'Y']]).fs = demoFs
      ∧ (Ftp.store_file "/srv/root" "." (some (TransferSession.new .port)) demoFs "f"
          [['X', 'Y']]).err = some "write failed"
      ∧ (TransferSession.new .port).offset = 0 := by decide

/-- C6 counterexample: with an offset of 0 set by REST against an empty
file, the offset equals the file size, yet RETR replies 226 Transfer
complete and not 550 Offset out of range: the out-of-range check only
runs when the offset is positive. -/
theorem retrieve_offset_at_size_no_550 :
    (Ftp.retrieve "/srv/root" ""
        ((Ftp.restart (some (TransferSession.new .port)) 0).2.1) demoFsEmpty "f").replies
        = ["150 Opening BINARY mode data connection for f.\r\n",
           "226 Transfer complete.\r\n"]
      ∧ "550 Offset out of range.\r\n"
          ∉ (Ftp.retrieve "/srv/root" ""
              ((Ftp.restart (some (TransferSession.new .port)) 0).2.1) demoFsEmpty
              "f").replies
      ∧ (Ftp.retrieve "/srv/root" ""
          ((Ftp.restart (some (TransferSession.new .port)) 0).2.1) demoFsEmpty
          "f").dataOut = [] := by decide

/-- C6 (amended): for a file entry e and a positive offset n set by a
preceding REST (no abort in progress): if n < size, RETR streams exactly
the suffix of the content from byte n and finishes with 226 Transfer
complete; if n ≥ size, RETR replies 550 Offset out of range and transfers
no data.  (With n = 0 the offset check is skipped entirely, see the
counterexample.) -/
theorem retrieve_rest_offset_spec (root pwd fname : String) (fs : FS) (e : FSEntry)
    (s0 : TransferSession) (n : Nat)
    (hn : 0 < n) (hab : s0.aborted = false)
    (hlook : FS.lookup fs (dotResolve (rjoin (rjoin root pwd) fname)) = some e) :
    (e.content.length ≤ n →
      (Ftp.retrieve root pwd ((Ftp.restart (some s0) n).2.1) fs fname).replies
          = ["150 Opening BINARY mode data connection for " ++ fname ++ ".\r\n",
             "550 Offset out of range.\r\n"]
        ∧ (Ftp.retrieve root pwd ((Ftp.restart (some s0) n).2.1) fs fname).dataOut = [])
    ∧ (n < e.content.length →
      (Ftp.retrieve root pwd ((Ftp.restart (some s0) n).2.1) fs fname).replies
          = ["150 Opening BINARY mode data connection for " ++ fname ++ ".\r\n",
             "226 Transfer complete.\r\n"]
        ∧ (Ftp.retrieve root pwd ((Ftp.restart (some s0) n).2.1) fs fname).dataOut
            = e.content.drop n) := by
  have hR : Ftp.retrieve root pwd ((Ftp.restart (some s0) n).2.1) fs fname
      = Ftp.retrieve root pwd (some { s0 with offset := n }) fs fname := rfl
  rw [hR]
  have hex : fsExists fs (rjoin (rjoin root pwd) fname) = true := by
    unfold fsExists; rw [hlook]; rfl
  simp only [Ftp.retrieve]
  rw [hex, hlook]
  dsimp only
  by_cases hc : e.content.length ≤ n
  · rw [if_pos ⟨hn, hc⟩]
    constructor
    · intro _; exact ⟨rfl, rfl⟩
    · intro h'; omega
  · rw [if_neg (by omega : ¬ (0 < n ∧ e.content.length ≤ n))]
    rw [retrLoop_drop _ _ _ hab]
    rw [if_neg (by rw [hab]; exact Bool.false_ne_true)]
    constructor
    · intro h'; omega
    · intro _; exact ⟨rfl, rfl⟩

theorem retrieve_rest_offset_spec_witness :
    (0 : Nat) < 4
      ∧ (Ftp.retrieve "/srv/root" ""
          ((Ftp.restart (some (TransferSession.new .port)) 4).2.1) demoFsTen
          "f").dataOut = "abcdefghij".data.drop 4 := by
  have h := retrieve_rest_offset_spec "/srv/root" "" "f" demoFsTen
      ⟨"/srv/root/f", false, "abcdefghij".data, ""⟩ (TransferSession.new .port) 4
      (by decide) (by decide) (by decide)
  exact ⟨by decide, (h.2 (by decide)).2⟩

/-- C7 counterexample: it is not the case that in every complete trace of
the control loop the reply to command i is written before command i+1 is
read: the loop spawns each handler and immediately reads on, so the trace
read 0, read 1, reply 1, reply 0 is reachable. -/
theorem handle_reorder_refutes_inorder :
    ¬ (∀ (t : List Ev), handleTrace 2 t →
        ∀ (t₁ t₂ : List Ev) (i : Nat),
          t = t₁ ++ Ev.read (i + 1) :: t₂ → Ev.reply i ∈ t₁) := by
  intro hcl
  have := hcl [Ev.read 0, Ev.read 1, Ev.reply 1, Ev.reply 0] (by decide)
      [Ev.read 0] [Ev.reply 1, Ev.reply 0] 0 rfl
  exact absurd this (by decide)

/-- C7 (amended): within one control connection, commands are read in
strictly increasing order and a command's reply can only be written after
that command has been read, but because dispatch runs on a spawned task
the reader may read the next command before the previous command's reply
is written — witnessed by the reachable trace read 0, read 1, reply 1,
reply 0. -/
theorem handle_trace_order (n : Nat) (t : List Ev) (ht : handleTrace n t) :
    (∀ (t₁ t₂ : List Ev) (i : Nat), t = t₁ ++ Ev.reply i :: t₂ → Ev.read i ∈ t₁)
    ∧ (∀ (t₁ t₂ t₃ : List Ev) (i j : Nat),
        t = t₁ ++ Ev.read i :: (t₂ ++ Ev.read j :: t₃) → i < j)
    ∧ handleTrace 2 [Ev.read 0, Ev.read 1, Ev.reply 1, Ev.reply 0] := by
  refine ⟨?_, ?_, by decide⟩
  · intro t₁ t₂ i hsplit
    have hrun : (t₁ ++ Ev.reply i :: t₂).foldl (traceStep n) (some ⟨0, []⟩)
        = some ⟨n, []⟩ := by
      rw [← hsplit]; exact ht
    rcases trace_reply_has_read n t₁ ⟨0, []⟩ i t₂ ⟨n, []⟩ hrun with hp | hr
    · exact absurd hp (by simp)
    · exact hr
  · intro t₁ t₂ t₃ i j hsplit
    exact trace_reads_ordered n t ht t₁ t₂ t₃ i j hsplit

theorem handle_trace_order_witness :
    Ev.read 0 ∈ [Ev.read 0] ∧ (0 : Nat) < 1 := by
  have h := handle_trace_order 2 [Ev.read 0, Ev.reply 0, Ev.read 1, Ev.reply 1] (by decide)
  exact ⟨h.1 [Ev.read 0] [Ev.read 1, Ev.reply 1] 0 rfl,
         h.2.1 [] [Ev.reply 0] [Ev.reply 1] 0 1 rfl⟩

/-- C8 counterexample: an RNTO on a connection with no transfer session
(hence no prior successful RNFR) is not answered 503 Bad sequence of
commands: the handler fails with No session found, the connection loop
reports 550 Error occurs: No session found, and the filesystem is
untouched. -/
theorem rnto_no_session_not_503 :
    handleReplies (dispatch "/srv/root" (.RNTO "x") demoUser demoFs demoOrc)
        = ["550 Error occurs: No session found"]
      ∧ "503 Bad sequence of commands.\r\n"
          ∉ handleReplies (dispatch "/srv/root" (.RNTO "x") demoUser demoFs demoOrc)
      ∧ (dispatch "/srv/root" (.RNTO "x") demoUser demoFs demoOrc).fs = demoFs := by
  decide

/-- C8 (amended): on every connection whose user holds no transfer
session, an RNTO (in particular one with no prior successful RNFR) makes
the handler fail with No session found — reported by the connection loop
as 550 Error occurs: No session found, never 503 — and performs no
filesystem rename. -/
theorem rnto_no_session_behavior (root pwd un : String) (st : UserStatus) (a : SockAddr)
    (tt : TransferType) (fs : FS) (nm : String) (orc : Oracles) :
    (dispatch root (.RNTO nm) ⟨un, st, a, none, tt, pwd⟩ fs orc).replies = []
    ∧ (dispatch root (.RNTO nm) ⟨un, st, a, none, tt, pwd⟩ fs orc).err
        = some "No session found"
    ∧ (dispatch root (.RNTO nm) ⟨un, st, a, none, tt, pwd⟩ fs orc).fs = fs
    ∧ handleReplies (dispatch root (.RNTO nm) ⟨un, st, a, none, tt, pwd⟩ fs orc)
        = ["550 Error occurs: No session found"] :=
  ⟨rfl, rfl, rfl, rfl⟩

/-- C9: an ABOR that finds an existing transfer session always leaves the
user's status Active — whatever the status was before, including a
connection that never completed the USER/PASS sequence — raises the
session's aborted flag, and replies 226 ABOR command processed. -/
theorem abor_sets_status_active (root : String) (u : User) (fs : FS) (orc : Oracles)
    (s : TransferSession) (h : u.session = some s) :
    (dispatch root .ABOR u fs orc).user.status = .Active
    ∧ (dispatch root .ABOR u fs orc).replies = ["226 ABOR command processed.\r\n"]
    ∧ (dispatch root .ABOR u fs orc).user.session = some { s with aborted := true } := by
  refine ⟨rfl, ?_, ?_⟩ <;> simp [dispatch, Ftp.abort, h]

theorem abor_sets_status_active_witness :
    (dispatch "/srv/root" .ABOR
        ⟨"anonymous", .Logging, demoAddr, some (TransferSession.new .port), .ASCII, ""⟩
        demoFs demoOrc).user.status = .Active :=
  (abor_sets_status_active "/srv/root"
      ⟨"anonymous", .Logging, demoAddr, some (TransferSession.new .port), .ASCII, ""⟩
      demoFs demoOrc (TransferSession.new .port) rfl).1

/-- C10 counterexample: parse_command is not total: an empty line, a
whitespace-only line, a PORT argument with five fields, a PORT argument
with a non-numeric field, and a non-numeric ALLO argument all hit an
unwrap and panic (modelled as none). -/
theorem parse_command_panics :
    parse_command "" = none
      ∧ parse_command " " = none
      ∧ parse_command "PORT 1,2,3,4,5" = none
      ∧ parse_command "PORT 1,2,3,4,x,6" = none
      ∧ parse_command "ALLO ten" = none := by decide

/-- C10 (amended): parse_command returns a command for every input line
that contains at least one non-whitespace token and whose verb is neither
PORT nor ALLO (unknown verbs map to NOOP); it panics on empty or
whitespace-only lines, and PORT and ALLO panic on arguments their numeric
parses reject. -/
theorem parse_command_total_except_port_allo (req cmd : String) (rest : List String)
    (h : splitWs (sTrim req) = cmd :: rest) (hp : cmd ≠ "PORT") (ha : cmd ≠ "ALLO") :
    (parse_command req).isSome = true := by
  unfold parse_command
  rw [h]
  exact command_of_isSome cmd _ hp ha

theorem parse_command_total_except_port_allo_witness :
    splitWs (sTrim "CWD sub") = "CWD" :: ["sub"]
      ∧ (parse_command "CWD sub").isSome = true :=
  ⟨by decide,
   parse_command_total_except_port_allo "CWD sub" "CWD" ["sub"] (by decide) (by decide)
     (by decide)⟩

end RFtp
